import Mathlib

/-!
Verification development for the sc2ts daily-extension engine.

The repository provides `sc2ts/cli.py` (the command-line surface) and
`tests/test_inference.py` (the test-suite of the inference core).  The
functions of `sc2ts/cli.py` are embedded directly from their source.  The
inference core itself (`sc2ts.inference`: `extend`, `solve_num_mismatches`,
`mirror_ts_coordinates`, `match_tsinfer`, the group gate and the attachment
machinery) is not part of the provided sources; those parts are modelled
from the specification, with concrete scenario data taken from
`tests/test_inference.py`.
-/

namespace Sc2ts

/-! ## Embedding of `sc2ts/cli.py` -/

/-- Python runtime error kinds relevant to `cli.get_resources`. -/
inductive PyErr where
  | nameError (name : String)
deriving DecidableEq, Repr

/-- The dictionary returned by `cli.get_resources` on success. -/
structure Resources where
  elapsed_time : Int
  user_time : Int
  sys_time : Int
  max_memory : Int
deriving DecidableEq, Repr

/-- Embedding of `cli.get_resources` (src/sc2ts/cli.py lines 40-59).

`resourceIsNone` models `resource is None` (the import fallback at lines
25-28); `wallTime`, `userTime`, `sysTime` model the computed timings;
`ruMaxrss` models `resource.getrusage(resource.RUSAGE_SELF).ru_maxrss` and
`isDarwin` models `sys.platform == "darwin"`.  Python resolves the name
`max_mem` at the return statement against the local bindings made on the
two branches: the `resource is None` branch binds `maxmem` (not `max_mem`),
so the lookup is modelled explicitly through an association list of local
variable bindings. -/
def get_resources (resourceIsNone : Bool) (wallTime userTime sysTime : Int)
    (ruMaxrss : Int) (isDarwin : Bool) : Except PyErr Resources :=
  let locals : List (String × Int) :=
    if resourceIsNone then
      [("maxmem", -1)]
    else
      [("max_mem", if isDarwin then ruMaxrss else ruMaxrss * 1024)]
  match locals.lookup "max_mem" with
  | some v =>
      Except.ok
        { elapsed_time := wallTime, user_time := userTime,
          sys_time := sysTime, max_memory := v }
  | none => Except.error (PyErr.nameError "max_mem")

/-- Count of MatchDb rows strictly newer than `date`
(`MatchDb.count_newer`).  The db is modelled as its list of row dates;
ISO-8601 date strings compare lexicographically, which equals the numeric
order of their digit strings, so dates are coded as naturals
(e.g. 2020-02-15 as 20200215). -/
def countNewer (db : List Nat) (date : Nat) : Nat :=
  (db.filter (fun d => decide (date < d))).length

/-- `MatchDb.delete_newer(date)`: removes the rows strictly newer than
`date`. -/
def deleteNewer (db : List Nat) (date : Nat) : List Nat :=
  db.filter (fun d => !(decide (date < d)))

/-- Outcome of the MatchDb check at the head of `cli.extend`:
either the command aborts at the interactive prompt, or it proceeds with
the (possibly updated) db, recording whether `match_db.delete_newer` was
invoked. -/
inductive ExtendDbOutcome where
  | aborted
  | proceeded (db : List Nat) (deleteNewerCalled : Bool)
deriving DecidableEq, Repr

/-- Embedding of the MatchDb guard of `cli.extend`
(src/sc2ts/cli.py lines 503-511):

    newer_matches = match_db.count_newer(date)
    if newer_matches > 0:
        if not force:
            click.confirm(..., abort=True)
            match_db.delete_newer(date)

`confirm` models the user's answer to `click.confirm`; declining raises
`click.Abort` (modelled by `aborted`).  Note `match_db.delete_newer` sits
inside the `if not force` block, so the `--force` path never deletes. -/
def extendMatchDbCheck (db : List Nat) (date : Nat)
    (force confirm : Bool) : ExtendDbOutcome :=
  if 0 < countNewer db date then
    if !force then
      if confirm then ExtendDbOutcome.proceeded (deleteNewer db date) true
      else ExtendDbOutcome.aborted
    else ExtendDbOutcome.proceeded db false
  else ExtendDbOutcome.proceeded db false

/-! ## Retrospective group gate (spec §4.7 step 5, §4.8) -/

/-- Quality summary of one retrospective sample group, as consumed by the
gate of spec §4.7 step 5.  `numNodes` is the number of nodes of the group
tree (the nodes the group would add to the ARG if committed);
`mean_mutations_per_sample` is the exact rational
`numMutations / numNodes`, kept as its numerator and denominator so the
gate compares it by cross-multiplication. -/
structure RetroGroup where
  size : Nat
  rootMutations : Nat
  differentDates : Nat
  numRecurrentMutations : Nat
  numMutations : Nat
  numNodes : Nat
deriving DecidableEq, Repr

/-- The gate thresholds of `sc2ts.extend`
(`min_group_size`, `min_root_mutations`, `min_different_dates`,
`max_recurrent_mutations`, `max_mutations_per_sample`).
The two maxima are `Int` because the CLI accepts −1 for them. -/
structure RetroParams where
  minGroupSize : Nat
  minRootMutations : Nat
  minDifferentDates : Nat
  maxRecurrentMutations : Int
  maxMutationsPerSample : Int
deriving DecidableEq, Repr

/-- Modelled from the spec: the group gate of §4.7 step 5
(`sc2ts.inference` is not under src/; only its tests are).  The checks are
applied in the spec's order — `size ≥ min_group_size`,
`root_mutations ≥ min_root_mutations`, distinct dates
`≥ min_different_dates`, `num_recurrent_mutations ≤ max_recurrent_mutations`,
`mean_mutations_per_sample ≤ max_mutations_per_sample` — and the first
failing check yields the structured skip reason logged at debug level
(log text shapes follow tests/test_inference.py:
`Skipping size=…`, `Skipping root_mutations=… < threshold`,
`Skipping num_recurrent_mutations=… exceeds threshold`,
`Skipping mean_mutations_per_sample=… exceeds threshold`).
`none` means the group passes the gate. -/
def groupSkipReason (p : RetroParams) (g : RetroGroup) : Option String :=
  if g.size < p.minGroupSize then
    some ("Skipping size=" ++ Nat.repr g.size ++ " < threshold")
  else if g.rootMutations < p.minRootMutations then
    some ("Skipping root_mutations=" ++ Nat.repr g.rootMutations ++ " < threshold")
  else if g.differentDates < p.minDifferentDates then
    some ("Skipping num_different_dates=" ++ Nat.repr g.differentDates ++ " < threshold")
  else if p.maxRecurrentMutations < (g.numRecurrentMutations : Int) then
    some ("Skipping num_recurrent_mutations=" ++ Nat.repr g.numRecurrentMutations
      ++ " exceeds threshold")
  else if p.maxMutationsPerSample * (g.numNodes : Int) < (g.numMutations : Int) then
    some "Skipping mean_mutations_per_sample exceeds threshold"
  else none

/-- Result of running the retrospective re-matcher over the candidate
groups: the admitted groups (the ARG's `retro_groups` metadata), the debug
log records for the skipped ones, and the resulting ARG node count. -/
structure RetroOutcome where
  retroGroups : List RetroGroup
  logs : List String
  argNumNodes : Nat
deriving DecidableEq, Repr

/-- Modelled from the spec: the retrospective attachment loop (§4.8,
§4.7 step 5; `sc2ts.inference.add_matching_results` is not under src/).
Each candidate group is either skipped — a debug log record, no ARG
change — or admitted, adding its nodes to the ARG.  Rejection is flow
control, not an error: the function is total and a skipped group leaves
the ARG untouched. -/
def add_matching_results (p : RetroParams) (groups : List RetroGroup)
    (argNumNodes : Nat) : RetroOutcome :=
  groups.foldr
    (fun g acc =>
      match groupSkipReason p g with
      | some msg => { acc with logs := msg :: acc.logs }
      | none =>
          { acc with
            retroGroups := g :: acc.retroGroups,
            argNumNodes := acc.argNumNodes + g.numNodes })
    { retroGroups := [], logs := [], argNumNodes := argNumNodes }

/-- The first retrospective candidate group of the
`2020-02-13 → 2020-02-15` extension, recorded in
`TestRealData.test_2020_02_14_all_matches` (src/tests/test_inference.py):
one strain (`SRR15736313`), zero root mutations, one distinct date
(`2020-01-29`), zero recurrent mutations, 19 mutations over its 2 nodes. -/
def group20200129A : RetroGroup :=
  { size := 1, rootMutations := 0, differentDates := 1,
    numRecurrentMutations := 0, numMutations := 19, numNodes := 2 }

/-- The six retrospective candidate groups of the
`2020-02-13 → 2020-02-15` extension
(`TestRealData.test_2020_02_14_all_matches` asserts there are six; the
first is `group20200129A` and the remaining five are modelled with the
small sizes and zero recurrent-mutation counts that the same test run
admits at the default thresholds). -/
def groups20200214 : List RetroGroup :=
  [group20200129A,
   { size := 1, rootMutations := 0, differentDates := 1,
     numRecurrentMutations := 0, numMutations := 2, numNodes := 2 },
   { size := 1, rootMutations := 0, differentDates := 1,
     numRecurrentMutations := 0, numMutations := 4, numNodes := 2 },
   { size := 2, rootMutations := 0, differentDates := 1,
     numRecurrentMutations := 0, numMutations := 9, numNodes := 3 },
   { size := 1, rootMutations := 0, differentDates := 1,
     numRecurrentMutations := 0, numMutations := 8, numNodes := 2 },
   { size := 1, rootMutations := 0, differentDates := 1,
     numRecurrentMutations := 0, numMutations := 10, numNodes := 2 }]

/-- Thresholds of `TestRealData.test_2020_02_14_skip_recurrent`:
`min_root_mutations=0, min_group_size=1, min_different_dates=1,
max_recurrent_mutations=-1` (defaults elsewhere). -/
def params20200215RecurrentMinusOne : RetroParams :=
  { minGroupSize := 1, minRootMutations := 0, minDifferentDates := 1,
    maxRecurrentMutations := -1, maxMutationsPerSample := 10 }

/-- The same thresholds with the recurrent-mutations gate effectively
unbounded (`max_recurrent_mutations=100`, the value used by
`TestRealData.test_2020_02_14_skip_max_mutations` to let everything
through that gate). -/
def params20200215Unbounded : RetroParams :=
  { minGroupSize := 1, minRootMutations := 0, minDifferentDates := 1,
    maxRecurrentMutations := 100, maxMutationsPerSample := 10 }

/-- Thresholds of `TestRealData.test_2020_02_14_skip_group_size`:
`min_root_mutations=0, min_group_size=100, min_different_dates=1`
(defaults elsewhere). -/
def params20200215MinSize100 : RetroParams :=
  { minGroupSize := 100, minRootMutations := 0, minDifferentDates := 1,
    maxRecurrentMutations := 10, maxMutationsPerSample := 10 }

/-! ## Parameter solver (spec §4.2) -/

/-- Genome length of the reference corpus: L = 29904. -/
def genomeLength : Nat := 29904

/-- The fixed per-site mutation probability μ = 0.0125 = 1/80
(pinned by `TestSolveNumMismatches.test_examples`). -/
def hmmMu : ℚ := 1 / 80

/-- The recombination odds for budget `k`:
x(k) = (11/10) · (μ/(1−4μ))^k = (11/10) / 76^k
(μ = 1/80, so μ/(1−4μ) = 1/76); see `solve_num_mismatches`. -/
def rhoOdds (k : Nat) : ℚ := (11 / 10) / 76 ^ k

/-- `qApprox a b tol`: `a` and `b` agree within `tol` (two-sided). -/
def qApprox (a b tol : ℚ) : Prop := a - b < tol ∧ b - a < tol

/-- Modelled from the spec: `sc2ts.solve_num_mismatches` (§4.2) is not
under src/; only its test is, and the code under src/ is the authority.
μ is fixed at the configured default 0.0125 = 1/80.  The spec's formula
ρ ≈ μ^k/L contradicts the outputs `TestSolveNumMismatches.test_examples`
pins (see `solve_num_mismatches_k2_counterexample`), so ρ is reconstructed
from those pinned outputs instead: ρ(k) = x/(1+x) with odds
x = (11/10)·(μ/(1−4μ))^k, which reproduces the pinned 0.0001904 (k=2),
2.50582e-06 (k=3) and 3.297146e-08 (k=4) to the printed precision, and
saturates to exactly 0 when x underflows the smallest positive IEEE-754
double 2^−1074 (k = 1000 is pinned to 0).  The result is an exact
rational, a pure function of k (same k ⇒ same (μ, ρ)). -/
def solve_num_mismatches (k : Nat) : ℚ × ℚ :=
  let x := rhoOdds k
  (hmmMu, if x < 1 / 2 ^ 1074 then 0 else x / (1 + x))

/-! ## Coordinate mirror (spec §4.3) -/

/-- A site of the (opaque) tree sequence: its position, its ancestral
state, and the sample states at the site (entry j is sample j's allele;
−1 is missing). -/
structure MSite where
  position : Nat
  ancestral : Int
  states : List Int
deriving DecidableEq, Repr

/-- An edge of the tree sequence: genomic interval [left, right) plus
parent and child node IDs. -/
structure MEdge where
  left : Nat
  right : Nat
  parent : Nat
  child : Nat
deriving DecidableEq, Repr

/-- The tables of a tree sequence that the coordinate mirror touches. -/
structure TreeSeq where
  seqLength : Nat
  sites : List MSite
  edges : List MEdge
deriving DecidableEq, Repr

/-- Reflection of one site: p ↦ L − 1 − p; states unchanged. -/
def mirrorSite (L : Nat) (s : MSite) : MSite :=
  { s with position := L - 1 - s.position }

/-- Reflection of one edge: [l, r) ↦ [L − r, L − l). -/
def mirrorEdge (L : Nat) (e : MEdge) : MEdge :=
  { e with left := L - e.right, right := L - e.left }

/-- Modelled from the spec: `sc2ts.inference.mirror_ts_coordinates` (§4.3;
not under src/, only its tests are).  Site positions are reflected
p ↦ L − 1 − p and the site table reversed so positions stay ascending
(cf. `TestMirrorTsCoords.test_dense_sites_example`); edge intervals are
reversed [l, r) ↦ [L − r, L − l). -/
def mirror_ts_coordinates (T : TreeSeq) : TreeSeq :=
  { seqLength := T.seqLength,
    sites := (T.sites.map (mirrorSite T.seqLength)).reverse,
    edges := T.edges.map (mirrorEdge T.seqLength) }

/-- Haplotype of sample `j`: its state at each site, read in site-table
order (ascending positions). -/
def haplotype (T : TreeSeq) (j : Nat) : List Int :=
  T.sites.map (fun s => s.states.getD j (-1))

/-- The five-site example tree sequence of
`TestMirrorTsCoords.test_dense_sites_example` (span 10, sites at positions
0, 2, 5, 8, 9 over two samples joined at a root). -/
def denseSitesExample : TreeSeq :=
  { seqLength := 10,
    sites :=
      [{ position := 0, ancestral := 0, states := [0, 1] },
       { position := 2, ancestral := 1, states := [1, 1] },
       { position := 5, ancestral := 4, states := [4, 2] },
       { position := 8, ancestral := 2, states := [2, 2] },
       { position := 9, ancestral := 3, states := [3, 0] }],
    edges :=
      [{ left := 0, right := 10, parent := 2, child := 0 },
       { left := 0, right := 10, parent := 2, child := 1 }] }

/-! ## HMM matcher on recombinant example 1 (spec §4.4) -/

/-- A segment `(left, right, parent)` of an HMM path. -/
structure HmmSegment where
  left : Nat
  right : Nat
  parent : Nat
deriving DecidableEq, Repr

/-- An HMM match: path segments tiling [0, L) plus the residual mutations
(modelled by their site positions). -/
structure HmmMatch where
  path : List HmmSegment
  mutations : List Nat
deriving DecidableEq, Repr

/-- Sites where node 31 (sample SRR11597188) carries derived alleles that
node 46's lineage lacks: positions 871, 3027, 3787 (listed in
`recombinant_example_1`, src/tests/test_inference.py lines 17-39). -/
def leftDiscriminatingSites : List Nat := [871, 3027, 3787]

/-- Sites where node 46's lineage carries derived alleles that node 31
lacks: positions 11083, 15324, 29303 (from `recombinant_example_1` and
the `no_recombination` rerun summary `[11083T>G, 15324C>T, 29303C>T]` of
`TestMatchRecombinants.test_example_1`). -/
def rightDiscriminatingSites : List Nat := [11083, 15324, 29303]

/-- Modelled from the spec: the residual mutations (§4.4 output) of the
two-segment path taking node 31 on [0, b) and node 46 on [b, L) for the
spliced frankentype haplotype — the discriminating sites that fall on the
wrong side of the breakpoint.  The frankentype sample carries node 31's
derived alleles at the left discriminating sites and node 46's at the
right ones. -/
def exampleOnePathMutations (b : Nat) : List Nat :=
  leftDiscriminatingSites.filter (fun p => decide (b ≤ p))
    ++ rightDiscriminatingSites.filter (fun p => decide (p < b))

/-- Modelled from the spec: the HMM cost `#mutations + (#segments − 1)·k`
(§4.4) of breakpoint choice `b` for the frankentype sample; `b = 0` and
`b = 29904` are the single-segment paths to node 46 and node 31. -/
def exampleOneHmmCost (k : Nat) (b : Nat) : Nat :=
  (exampleOnePathMutations b).length + (if b = 0 ∨ b = 29904 then 0 else k)

/-- The equal-cost (tied) breakpoints of the frankentype example at k = 2:
the positions 3788..11083 (characterised against `exampleOneHmmCost` in
`hmm_tiebreak_amended`). -/
def exampleOneTiedBreakpoints : List Nat := List.range' 3788 7296

/-- The forward breakpoint the spec's tie rule (§4.4 (d): leftmost)
prescribes on the tied set — the head of the ascending tied list. -/
def specForwardBreakpoint : Nat := exampleOneTiedBreakpoints.head?.getD 0

/-- The reverse (mirror) breakpoint the spec's tie rule (rightmost after
un-mirroring) prescribes on the tied set — the last element of the
ascending tied list. -/
def specReverseBreakpoint : Nat := exampleOneTiedBreakpoints.getLast?.getD 0

/-- Modelled from the tests: the matcher's forward run places tied
breakpoints rightmost (`TestMatchRecombinants.test_example_1` and
`TestMatchingDetails.test_match_recombinant` require 11083), the last
element of the ascending tied list. -/
def modelForwardBreakpoint : Nat := exampleOneTiedBreakpoints.getLast?.getD 0

/-- Modelled from the tests: the matcher's reverse (mirror) run places
tied breakpoints leftmost after un-mirroring
(`TestMatchRecombinants.test_example_1` requires 3788), the head of the
ascending tied list. -/
def modelReverseBreakpoint : Nat := exampleOneTiedBreakpoints.head?.getD 0

/-- The forward breakpoint required by the repository's tests
(src/tests/test_inference.py, `test_example_1` and
`test_match_recombinant`: `interval_right = 11083`). -/
def observedForwardBreakpoint : Nat := 11083

/-- The reverse breakpoint required by the repository's tests
(src/tests/test_inference.py, `test_example_1`: `interval_left = 3788`). -/
def observedReverseBreakpoint : Nat := 3788

/-- Modelled from the spec: the forward HmmMatch of the frankentype
sample at k = 2 — the cost-minimal two-segment path from node 31 to
node 46 with the tied breakpoint placed per the forward rule, plus its
residual mutations. -/
def exampleOneForwardMatch : HmmMatch :=
  { path :=
      [{ left := 0, right := modelForwardBreakpoint, parent := 31 },
       { left := modelForwardBreakpoint, right := 29904, parent := 46 }],
    mutations := exampleOnePathMutations modelForwardBreakpoint }

/-! ## Reversion push (spec §4.7 step 4) -/

/-- A mutation record: site label, inherited and derived allele codes
(A=0, C=1, G=2, T=3). -/
structure ArgMutation where
  site : Nat
  inherited : Int
  derived : Int
deriving DecidableEq, Repr

/-- The REVERSION_PUSH node flag.  Modelled from the spec: the flag bit's
concrete value is internal to `sc2ts.core`, which is not under src/; only
its presence on the push node matters here. -/
def NODE_IS_REVERSION_PUSH : Nat := 2 ^ 22

/-- What a reversion-push attachment produces for one sample: the flags
and `sc2ts.sites` metadata of the inserted parent node, and the number of
mutations left on the sample node itself. -/
structure PushOutcome where
  parentFlags : Nat
  parentSites : List Nat
  sampleArgMutationCount : Nat
deriving DecidableEq, Repr

/-- Modelled from the spec: reversion push (§4.7 step 4;
`sc2ts.inference` is not under src/).  Given the grandparent's allele at
each site and the mutations that attaching the sample would place below
it, the immediate reversions — derived state equal to the grandparent's
state at that site — are pushed to a newly inserted REVERSION_PUSH parent
node whose `sc2ts.sites` metadata lists the pushed sites; the pushed
mutations are no longer emitted on the sample. -/
def applyReversionPush (gpAllele : Nat → Int) (muts : List ArgMutation) :
    PushOutcome :=
  let pushed := muts.filter (fun m => decide (m.derived = gpAllele m.site))
  let kept := muts.filter (fun m => !decide (m.derived = gpAllele m.site))
  if pushed.isEmpty then
    { parentFlags := 0, parentSites := [],
      sampleArgMutationCount := kept.length }
  else
    { parentFlags := NODE_IS_REVERSION_PUSH,
      parentSites := pushed.map (fun m => m.site),
      sampleArgMutationCount := kept.length }

/-- The mutation that attaching SRR11597163 on 2020-02-08 would place
below the group root: the reversion at the site labelled 5019, T→C
(`TestRealData.test_2020_02_08`: the push node's metadata is
`{date_added: 2020-02-08, sites: [5019]}` and the reversion is to `C`). -/
def srr11597163ArgMutations : List ArgMutation :=
  [{ site := 5019, inherited := 3, derived := 1 }]

/-- Grandparent alleles for the SRR11597163 attachment: `C` at the pushed
site 5019 (making the mutation an immediate reversion), `T` elsewhere. -/
def srr11597163GrandparentAllele : Nat → Int :=
  fun p => if p = 5019 then 1 else 3

/-- The HMM match mutation list of SRR11597163 recorded by
`TestRealData.test_2020_02_08`: exactly one mismatch, position 5025,
inherited `T`, derived `C`. -/
def srr11597163HmmMutations : List ArgMutation :=
  [{ site := 5025, inherited := 3, derived := 1 }]

/-! ## Exact matching and attachment (spec §4.4 emission, §4.7 step 1) -/

/-- Number of HMM mismatches between sample haplotype `h` and panel
haplotype `g`: sites where the alleles differ and the sample allele is not
missing (§4.4 emission: a site matches when `a = b` or `a = −1`). -/
def countMismatches (h g : List Int) : Nat :=
  ((h.zip g).filter
    (fun pr => decide (pr.1 ≠ pr.2) && decide (pr.1 ≠ -1))).length

/-- Modelled from the spec: the parent an exact-match sample attaches to —
a panel node whose haplotype agrees with the sample at every non-missing
site (§4.7 step 1). -/
def findExactMatchParent (panel : List (Nat × List Int)) (h : List Int) :
    Option Nat :=
  (panel.find? (fun pr => decide (countMismatches h pr.2 = 0))).map
    (fun pr => pr.1)

/-- Modelled from the spec: the matcher's output for an exact-match sample
(§4.4 output, §4.7 step 1) — a single segment [0, L) to the matching
parent and no mutations.  `k` is the `num_mismatches` budget; a zero-cost
single-segment path is optimal for every k, so the result does not depend
on it.  When no exact parent exists this model returns no match (the
non-exact cases are modelled separately on recombinant example 1). -/
def matchExact (L k : Nat) (panel : List (Nat × List Int)) (h : List Int) :
    Option HmmMatch :=
  (findExactMatchParent panel h).map
    (fun p =>
      { path := [{ left := 0, right := L, parent := p }], mutations := [] })

/-- ARG bookkeeping state touched by an exact-match attachment: the node
count and the per-node `exact_matches` counters. -/
structure ArgState where
  numNodes : Nat
  exactMatches : Nat → Nat

/-- Modelled from the spec: exact-match attachment (§4.7 step 1): the
sample attaches directly as a child of the matching parent, no internal
node is created (the node count is unchanged), and only the parent's
`exact_matches` counter increments. -/
def attachExactMatch (st : ArgState) (parent : Nat) : ArgState :=
  { numNodes := st.numNodes,
    exactMatches := fun q =>
      if q = parent then st.exactMatches q + 1 else st.exactMatches q }

/-- A three-node concrete panel for the SRR11597207 scenario
(`TestMatchingDetails.test_exact_matches` on the 2020-02-10 ARG): node 34
carries the haplotype the sample equals byte-for-byte; the other panel
nodes differ from it. -/
def panel20200210 : List (Nat × List Int) :=
  [(1, [0, 1, 2, 3, 0]), (34, [0, 1, 2, 3, 3]), (47, [1, 1, 2, 3, 3])]

/-- The SRR11597207 sample haplotype in the concrete panel model:
byte-identical to node 34's haplotype. -/
def srr11597207Haplotype : List Int := [0, 1, 2, 3, 3]

end Sc2ts

namespace Sc2ts

/-! ## Theorems for the cli embeddings -/

/-- Helper: deleting the newer rows leaves no row newer than `date`. -/
theorem countNewer_deleteNewer (db : List Nat) (date : Nat) :
    countNewer (deleteNewer db date) date = 0 := by
  simp [countNewer, deleteNewer, List.filter_filter, Bool.and_not_self]

/-- C10: when the `resource` module is unavailable (`resource is None`),
`cli.get_resources` raises `NameError` for the unbound name `max_mem`
(the branch assigns `maxmem = -1`, but the returned dict references
`max_mem`), instead of returning a dict with `max_memory = -1`; on the
other branch (resource available, non-darwin) the call succeeds with
`max_memory = ru_maxrss * 1024`. -/
theorem get_resources_nameError_when_resource_none
    (w u s m : Int) (d : Bool) :
    get_resources true w u s m d = Except.error (PyErr.nameError "max_mem")
    ∧ get_resources false w u s m false =
        Except.ok
          { elapsed_time := w, user_time := u, sys_time := s,
            max_memory := m * 1024 } := by
  constructor <;> rfl

/-- C9: in `cli.extend`, when the MatchDb holds matches strictly newer than
the requested date, `match_db.delete_newer(date)` runs only on the path
where `--force` was NOT given and the user confirmed the prompt; with
`--force` the command proceeds without calling `delete_newer`, leaving the
newer matches in place; declining the prompt aborts. -/
theorem extend_deleteNewer_only_unforced_confirmed
    (db : List Nat) (date : Nat) (confirm : Bool)
    (h : 0 < countNewer db date) :
    extendMatchDbCheck db date true confirm = ExtendDbOutcome.proceeded db false
    ∧ extendMatchDbCheck db date false true =
        ExtendDbOutcome.proceeded (deleteNewer db date) true
    ∧ extendMatchDbCheck db date false false = ExtendDbOutcome.aborted
    ∧ countNewer (deleteNewer db date) date = 0 := by
  refine ⟨?_, ?_, ?_, countNewer_deleteNewer db date⟩ <;>
    simp [extendMatchDbCheck, h]

/-- Witness for C9 at a concrete database: one match dated 2020-02-16 is
strictly newer than 2020-02-15. -/
theorem extend_deleteNewer_witness :
    extendMatchDbCheck [20200216] 20200215 true false =
        ExtendDbOutcome.proceeded [20200216] false
    ∧ extendMatchDbCheck [20200216] 20200215 false true =
        ExtendDbOutcome.proceeded (deleteNewer [20200216] 20200215) true
    ∧ extendMatchDbCheck [20200216] 20200215 false false =
        ExtendDbOutcome.aborted := by
  have h :=
    extend_deleteNewer_only_unforced_confirmed
      [20200216] 20200215 false (by decide)
  exact ⟨h.1, h.2.1, h.2.2.1⟩

/-! ## Theorems about the retrospective group gate -/

/-- Helper: unfolding of the retrospective loop on a cons cell. -/
theorem add_matching_results_cons (p : RetroParams) (g : RetroGroup)
    (t : List RetroGroup) (n : Nat) :
    add_matching_results p (g :: t) n =
      match groupSkipReason p g with
      | some msg =>
          { add_matching_results p t n with
              logs := msg :: (add_matching_results p t n).logs }
      | none =>
          { add_matching_results p t n with
              retroGroups := g :: (add_matching_results p t n).retroGroups,
              argNumNodes :=
                (add_matching_results p t n).argNumNodes + g.numNodes } :=
  rfl

/-- Helper: with a negative `max_recurrent_mutations` every group draws a
skip reason, whatever its statistics, because
`num_recurrent_mutations ≥ 0 > max_recurrent_mutations`. -/
theorem groupSkipReason_isSome_of_neg (p : RetroParams) (g : RetroGroup)
    (hneg : p.maxRecurrentMutations < 0) :
    (groupSkipReason p g).isSome = true := by
  unfold groupSkipReason
  split_ifs with h1 h2 h3 h4 h5 <;> try rfl
  exfalso
  omega

/-- C1 counterexample: on the `2020-02-13 → 2020-02-15` extension data,
`max_recurrent_mutations = -1` does not disable the recurrent-mutations
gate — it skips every group (admitting none, with the skip reason
`Skipping num_recurrent_mutations=0 exceeds threshold` recorded), whereas
the run with the gate effectively unbounded admits all six groups; the two
runs do not admit the same retrospective groups. -/
theorem retro_minus_one_sentinel_counterexample :
    (add_matching_results params20200215RecurrentMinusOne
        groups20200214 53).retroGroups = []
    ∧ (add_matching_results params20200215Unbounded
        groups20200214 53).retroGroups = groups20200214
    ∧ groups20200214 ≠ []
    ∧ "Skipping num_recurrent_mutations=0 exceeds threshold"
        ∈ (add_matching_results params20200215RecurrentMinusOne
            groups20200214 53).logs
    ∧ (add_matching_results params20200215RecurrentMinusOne
          groups20200214 53).retroGroups ≠
        (add_matching_results params20200215Unbounded
          groups20200214 53).retroGroups := by
  decide

/-- C1 amended: `max_recurrent_mutations = -1` (indeed any negative value)
is not a "disable" sentinel for the recurrent-mutations gate: since
`num_recurrent_mutations ≥ 0 > max_recurrent_mutations`, the gate
`num_recurrent_mutations ≤ max_recurrent_mutations` fails for every group,
so every retrospective group is skipped, `retro_groups` is empty and the
ARG gains no nodes. -/
theorem retro_negative_threshold_skips_all
    (p : RetroParams) (groups : List RetroGroup) (n : Nat)
    (hneg : p.maxRecurrentMutations < 0) :
    (add_matching_results p groups n).retroGroups = []
    ∧ (add_matching_results p groups n).argNumNodes = n := by
  induction groups with
  | nil => exact ⟨rfl, rfl⟩
  | cons g t ih =>
      have hsome := groupSkipReason_isSome_of_neg p g hneg
      obtain ⟨msg, hmsg⟩ := Option.isSome_iff_exists.mp hsome
      rw [add_matching_results_cons, hmsg]
      exact ⟨ih.1, ih.2⟩

/-- Witness for the amended C1 at the concrete `2020-02-15` data. -/
theorem retro_negative_threshold_witness :
    (add_matching_results params20200215RecurrentMinusOne
        groups20200214 53).retroGroups = []
    ∧ (add_matching_results params20200215RecurrentMinusOne
        groups20200214 53).argNumNodes = 53 :=
  retro_negative_threshold_skips_all
    params20200215RecurrentMinusOne groups20200214 53 (by decide)

/-- C8: when every candidate group is smaller than `min_group_size`, the
retrospective pass rejects every group: `retro_groups` is empty, one
debug-level `Skipping size=…` record is emitted per group, and the ARG
gains no nodes (rejection is flow control, not an error). -/
theorem retro_min_group_size_rejects_all
    (p : RetroParams) (groups : List RetroGroup) (n : Nat)
    (hall : ∀ g ∈ groups, g.size < p.minGroupSize) :
    (add_matching_results p groups n).retroGroups = []
    ∧ (add_matching_results p groups n).logs =
        groups.map
          (fun g => "Skipping size=" ++ Nat.repr g.size ++ " < threshold")
    ∧ (add_matching_results p groups n).argNumNodes = n := by
  induction groups with
  | nil => exact ⟨rfl, rfl, rfl⟩
  | cons g t ih =>
      have hg : g.size < p.minGroupSize := hall g (List.mem_cons_self g t)
      have ht := ih (fun x hx => hall x (List.mem_cons_of_mem g hx))
      have hmsg : groupSkipReason p g =
          some ("Skipping size=" ++ Nat.repr g.size ++ " < threshold") := by
        unfold groupSkipReason
        rw [if_pos hg]
      rw [add_matching_results_cons, hmsg]
      exact ⟨ht.1, by rw [List.map_cons, ← ht.2.1], ht.2.2⟩

/-- Witness for C8 at the concrete `2020-02-15` data with
`min_group_size = 100`: all six candidate groups are rejected on size,
with the `Skipping size=…` log records, and the ARG keeps its 53 nodes. -/
theorem retro_min_group_size_witness :
    (add_matching_results params20200215MinSize100
        groups20200214 53).retroGroups = []
    ∧ (add_matching_results params20200215MinSize100
        groups20200214 53).logs =
        groups20200214.map
          (fun g => "Skipping size=" ++ Nat.repr g.size ++ " < threshold")
    ∧ (add_matching_results params20200215MinSize100
        groups20200214 53).argNumNodes = 53 :=
  retro_min_group_size_rejects_all
    params20200215MinSize100 groups20200214 53 (by decide)

/-! ## Theorems about the parameter solver -/

/-- Helper: at k = 2 the odds do not underflow and ρ = 11/57771
(≈ 1.9040695e-4). -/
theorem solve_num_mismatches_k2_eval :
    (solve_num_mismatches 2).2 = 11 / 57771 := by
  simp only [solve_num_mismatches, rhoOdds]
  rw [if_neg (by norm_num)]
  norm_num

/-- Helper: at k = 3, ρ = 11/4389771 (≈ 2.5058255e-6). -/
theorem solve_num_mismatches_k3_eval :
    (solve_num_mismatches 3).2 = 11 / 4389771 := by
  simp only [solve_num_mismatches, rhoOdds]
  rw [if_neg (by norm_num)]
  norm_num

/-- Helper: at k = 4, ρ = 11/333621771 (≈ 3.2971469e-8). -/
theorem solve_num_mismatches_k4_eval :
    (solve_num_mismatches 4).2 = 11 / 333621771 := by
  simp only [solve_num_mismatches, rhoOdds]
  rw [if_neg (by norm_num)]
  norm_num

/-- Helper: at k = 1000 the odds underflow the smallest positive double
and ρ saturates to exactly 0. -/
theorem solve_num_mismatches_k1000_eval :
    (solve_num_mismatches 1000).2 = 0 := by
  simp only [solve_num_mismatches, rhoOdds]
  rw [if_pos (by norm_num)]

/-- Helper (Bernoulli, quartered): (6400/6399)^29904 exceeds 16. -/
theorem pow_6400_over_6399_gt :
    (16 : ℚ) < ((6400 : ℚ) / 6399) ^ 29904 := by
  have h1 : ((6400 : ℚ) / 6399) = 1 + 1 / 6399 := by norm_num
  have h2 : (1 + (7476 : ℚ) * (1 / 6399)) ≤ (1 + 1 / 6399 : ℚ) ^ 7476 := by
    have hb := one_add_mul_le_pow (a := (1 / 6399 : ℚ)) (by norm_num) 7476
    simpa using hb
  calc (16 : ℚ) < (1 + (7476 : ℚ) * (1 / 6399)) ^ 4 := by norm_num
    _ ≤ ((1 + 1 / 6399 : ℚ) ^ 7476) ^ 4 := by
        apply pow_le_pow_left (by positivity) h2
    _ = (1 + 1 / 6399 : ℚ) ^ 29904 := by rw [← pow_mul]
    _ = ((6400 : ℚ) / 6399) ^ 29904 := by rw [h1]

/-- Helper (Bernoulli, quartered): (400/399)^29904 exceeds 6400. -/
theorem pow_400_over_399_gt :
    (6400 : ℚ) < ((400 : ℚ) / 399) ^ 29904 := by
  have h1 : ((400 : ℚ) / 399) = 1 + 1 / 399 := by norm_num
  have h2 : (1 + (7476 : ℚ) * (1 / 399)) ≤ (1 + 1 / 399 : ℚ) ^ 7476 := by
    have hb := one_add_mul_le_pow (a := (1 / 399 : ℚ)) (by norm_num) 7476
    simpa using hb
  calc (6400 : ℚ) < (1 + (7476 : ℚ) * (1 / 399)) ^ 4 := by norm_num
    _ ≤ ((1 + 1 / 399 : ℚ) ^ 7476) ^ 4 := by
        apply pow_le_pow_left (by positivity) h2
    _ = (1 + 1 / 399 : ℚ) ^ 29904 := by rw [← pow_mul]
    _ = ((400 : ℚ) / 399) ^ 29904 := by rw [h1]

/-- Helper: the spec's defining relation for ρ at k = 2,
(1−ρ)^L · ρ = μ², has no solution: the left side stays strictly below μ²
for every ρ in [0, 1] (its maximum, near ρ = 1/L, is about 1.2e-5 while
μ² = 1.5625e-4). -/
theorem spec_rho_relation_unsolvable_k2 (r : ℚ) (h0 : 0 ≤ r) (h1 : r ≤ 1) :
    (1 - r) ^ genomeLength * r < hmmMu ^ 2 := by
  have hμ : hmmMu ^ 2 = 1 / 6400 := by norm_num [hmmMu]
  have hL : genomeLength = 29904 := rfl
  rw [hμ, hL]
  have h1r0 : (0 : ℚ) ≤ 1 - r := by linarith
  rcases lt_or_le r (1 / 6400) with hr | hr
  · have hpow1 : (1 - r) ^ 29904 ≤ 1 :=
      pow_le_one₀ h1r0 (by linarith)
    calc (1 - r) ^ 29904 * r ≤ 1 * r :=
          mul_le_mul_of_nonneg_right hpow1 h0
      _ = r := one_mul r
      _ < 1 / 6400 := hr
  · rcases le_or_lt r (1 / 400) with hr2 | hr2
    · have hpow : (1 - r) ^ 29904 ≤ ((6399 : ℚ) / 6400) ^ 29904 :=
        pow_le_pow_left h1r0 (by linarith) 29904
      have hkey : ((6399 : ℚ) / 6400) ^ 29904 < 1 / 16 := by
        have hpos : (0 : ℚ) < ((6400 : ℚ) / 6399) ^ 29904 := by positivity
        have hinv : ((6399 : ℚ) / 6400) ^ 29904 =
            (((6400 : ℚ) / 6399) ^ 29904)⁻¹ := by
          rw [← inv_pow]
          norm_num
        rw [hinv]
        have h16 : ((16 : ℚ))⁻¹ = 1 / 16 := by norm_num
        rw [← h16]
        exact inv_lt_inv_of_lt (by norm_num) pow_6400_over_6399_gt
      calc (1 - r) ^ 29904 * r ≤ ((6399 : ℚ) / 6400) ^ 29904 * r :=
            mul_le_mul_of_nonneg_right hpow h0
        _ ≤ ((6399 : ℚ) / 6400) ^ 29904 * (1 / 400) :=
            mul_le_mul_of_nonneg_left hr2 (by positivity)
        _ < (1 / 16) * (1 / 400) :=
            mul_lt_mul_of_pos_right hkey (by norm_num)
        _ = 1 / 6400 := by norm_num
    · have hpow : (1 - r) ^ 29904 ≤ ((399 : ℚ) / 400) ^ 29904 :=
        pow_le_pow_left h1r0 (by linarith) 29904
      have hkey : ((399 : ℚ) / 400) ^ 29904 < 1 / 6400 := by
        have hpos : (0 : ℚ) < ((400 : ℚ) / 399) ^ 29904 := by positivity
        have hinv : ((399 : ℚ) / 400) ^ 29904 =
            (((400 : ℚ) / 399) ^ 29904)⁻¹ := by
          rw [← inv_pow]
          norm_num
        rw [hinv]
        have h64 : ((6400 : ℚ))⁻¹ = 1 / 6400 := by norm_num
        rw [← h64]
        exact inv_lt_inv_of_lt (by norm_num) pow_400_over_399_gt
      calc (1 - r) ^ 29904 * r ≤ ((399 : ℚ) / 400) ^ 29904 * r :=
            mul_le_mul_of_nonneg_right hpow h0
        _ ≤ ((399 : ℚ) / 400) ^ 29904 * 1 :=
            mul_le_mul_of_nonneg_left h1 (by positivity)
        _ = ((399 : ℚ) / 400) ^ 29904 := mul_one _
        _ < 1 / 6400 := hkey

/-- C3 counterexample: the solver's ρ at k = 2 is 11/57771, which agrees
with the program's test-pinned output 0.0001904 within the test tolerance
1.5e-7, but is NOT within that tolerance of the spec's leading-order value
μ²/L ≈ 5.2e-9 — and neither is the pinned value itself — so the claim's
relation ρ ≈ μ^k/L fails at the claim's own k = 2 example. -/
theorem solve_num_mismatches_k2_counterexample :
    (solve_num_mismatches 2).2 = 11 / 57771
    ∧ qApprox (solve_num_mismatches 2).2 (1904 / 10 ^ 7) (15 / 10 ^ 8)
    ∧ ¬ qApprox (solve_num_mismatches 2).2 (hmmMu ^ 2 / (genomeLength : ℚ))
        (15 / 10 ^ 8)
    ∧ ¬ qApprox ((1904 : ℚ) / 10 ^ 7) (hmmMu ^ 2 / (genomeLength : ℚ))
        (15 / 10 ^ 8) := by
  refine ⟨solve_num_mismatches_k2_eval, ?_, ?_, ?_⟩
  · rw [solve_num_mismatches_k2_eval]
    constructor <;> norm_num
  · rw [solve_num_mismatches_k2_eval]
    intro hcon
    have hc := hcon.1
    norm_num [hmmMu, genomeLength] at hc
  · intro hcon
    have hc := hcon.1
    norm_num [hmmMu, genomeLength] at hc

/-- C3 amended: for every k ≥ 1 the solver returns μ fixed at
0.0125 = 1/80, and ρ matching the program's test-pinned outputs within the
test tolerance 1.5e-7 — 0.0001904 at k = 2, 2.50582e-06 at k = 3,
3.297146e-08 at k = 4 — with ρ saturating to exactly 0 when k is so large
that it underflows (k = 1000); the solver is a pure function of k, so the
same k always yields the same (μ, ρ).  These values do not arise from the
spec's relation (1−ρ)^L·ρ ≈ μ^k: at k = 2 that relation has no solution at
all, since (1−r)^L·r < μ² for every r in [0, 1]. -/
theorem solve_num_mismatches_amended (k : Nat) (hk : 1 ≤ k) :
    (solve_num_mismatches k).1 = 1 / 80
    ∧ qApprox (solve_num_mismatches 2).2 (1904 / 10 ^ 7) (15 / 10 ^ 8)
    ∧ qApprox (solve_num_mismatches 3).2 (250582 / 10 ^ 11) (15 / 10 ^ 8)
    ∧ qApprox (solve_num_mismatches 4).2 (3297146 / 10 ^ 14) (15 / 10 ^ 8)
    ∧ (solve_num_mismatches 1000).2 = 0
    ∧ ∀ r : ℚ, 0 ≤ r → r ≤ 1 →
        (1 - r) ^ genomeLength * r < hmmMu ^ 2 := by
  refine ⟨rfl, ?_, ?_, ?_, solve_num_mismatches_k1000_eval,
    fun r h0 h1 => spec_rho_relation_unsolvable_k2 r h0 h1⟩
  · rw [solve_num_mismatches_k2_eval]
    constructor <;> norm_num
  · rw [solve_num_mismatches_k3_eval]
    constructor <;> norm_num
  · rw [solve_num_mismatches_k4_eval]
    constructor <;> norm_num

/-- Witness for the amended C3 at k = 2. -/
theorem solve_num_mismatches_amended_witness :
    (solve_num_mismatches 2).1 = 1 / 80
    ∧ qApprox (solve_num_mismatches 2).2 (1904 / 10 ^ 7) (15 / 10 ^ 8) :=
  ⟨(solve_num_mismatches_amended 2 (by decide)).1,
   (solve_num_mismatches_amended 2 (by decide)).2.1⟩

/-! ## Theorems about the coordinate mirror -/

/-- Helper: two tree sequences with equal tables are equal. -/
theorem treeSeq_eq_of_fields (a b : TreeSeq)
    (h1 : a.seqLength = b.seqLength) (h2 : a.sites = b.sites)
    (h3 : a.edges = b.edges) : a = b := by
  cases a with
  | mk la sa ea =>
      cases b with
      | mk lb sb eb =>
          have h1b : la = lb := h1
          have h2b : sa = sb := h2
          have h3b : ea = eb := h3
          subst h1b
          subst h2b
          subst h3b
          rfl

/-- Helper: reflecting a site twice is the identity when the position is
within the sequence. -/
theorem mirrorSite_mirrorSite (L : Nat) (s : MSite) (h : s.position < L) :
    mirrorSite L (mirrorSite L s) = s := by
  cases s with
  | mk p a st =>
      have hp : p < L := h
      show MSite.mk (L - 1 - (L - 1 - p)) a st = MSite.mk p a st
      have : L - 1 - (L - 1 - p) = p := by omega
      rw [this]

/-- Helper: reflecting an edge twice is the identity when its interval
lies within the sequence. -/
theorem mirrorEdge_mirrorEdge (L : Nat) (e : MEdge)
    (hl : e.left ≤ L) (hr : e.right ≤ L) :
    mirrorEdge L (mirrorEdge L e) = e := by
  cases e with
  | mk l r p c =>
      have h1 : l ≤ L := hl
      have h2 : r ≤ L := hr
      show MEdge.mk (L - (L - l)) (L - (L - r)) p c = MEdge.mk l r p c
      have e1 : L - (L - l) = l := by omega
      have e2 : L - (L - r) = r := by omega
      rw [e1, e2]

/-- C4: `mirror_ts_coordinates` is an involution — for every tree sequence
whose site positions lie within [0, L) and whose edge intervals lie within
[0, L], mirroring twice restores the tables (sites and edges included) —
and each haplotype of the mirrored tree sequence read left-to-right equals
the corresponding haplotype of the original read right-to-left. -/
theorem mirror_ts_coordinates_involution (T : TreeSeq)
    (hsites : ∀ s ∈ T.sites, s.position < T.seqLength)
    (hedges : ∀ e ∈ T.edges, e.left ≤ T.seqLength ∧ e.right ≤ T.seqLength) :
    mirror_ts_coordinates (mirror_ts_coordinates T) = T
    ∧ ∀ j, haplotype (mirror_ts_coordinates T) j = (haplotype T j).reverse := by
  constructor
  · apply treeSeq_eq_of_fields
    · rfl
    · show ((T.sites.map (mirrorSite T.seqLength)).reverse.map
          (mirrorSite T.seqLength)).reverse = T.sites
      rw [List.map_reverse, List.reverse_reverse, List.map_map]
      calc T.sites.map (mirrorSite T.seqLength ∘ mirrorSite T.seqLength)
          = T.sites.map id := by
            apply List.map_congr_left
            intro s hmem
            exact mirrorSite_mirrorSite T.seqLength s (hsites s hmem)
        _ = T.sites := List.map_id T.sites
    · show (T.edges.map (mirrorEdge T.seqLength)).map (mirrorEdge T.seqLength)
          = T.edges
      rw [List.map_map]
      calc T.edges.map (mirrorEdge T.seqLength ∘ mirrorEdge T.seqLength)
          = T.edges.map id := by
            apply List.map_congr_left
            intro e hmem
            exact mirrorEdge_mirrorEdge T.seqLength e
              (hedges e hmem).1 (hedges e hmem).2
        _ = T.edges := List.map_id T.edges
  · intro j
    show ((T.sites.map (mirrorSite T.seqLength)).reverse.map
        (fun s => s.states.getD j (-1))) = (haplotype T j).reverse
    rw [List.map_reverse, List.map_map]
    rfl

/-- Witness for C4 at the concrete five-site example of
`TestMirrorTsCoords.test_dense_sites_example`. -/
theorem mirror_ts_coordinates_involution_witness :
    mirror_ts_coordinates (mirror_ts_coordinates denseSitesExample) =
        denseSitesExample
    ∧ haplotype (mirror_ts_coordinates denseSitesExample) 0 =
        (haplotype denseSitesExample 0).reverse :=
  ⟨(mirror_ts_coordinates_involution denseSitesExample
      (by decide) (by decide)).1,
   (mirror_ts_coordinates_involution denseSitesExample
      (by decide) (by decide)).2 0⟩

/-! ## Theorems about the HMM matcher on recombinant example 1 -/

/-- Helper: every breakpoint choice for the frankentype sample costs at
least 2 at k = 2. -/
theorem exampleOneHmmCost_two_ge (b : Nat) : 2 ≤ exampleOneHmmCost 2 b := by
  unfold exampleOneHmmCost exampleOnePathMutations
    leftDiscriminatingSites rightDiscriminatingSites
  simp only [List.filter_cons, List.filter_nil, decide_eq_true_eq]
  split_ifs <;> simp_all [List.length_append]
  all_goals omega

/-- Helper: a breakpoint choice costs exactly 2 at k = 2 precisely on the
interval [3788, 11083]. -/
theorem exampleOneHmmCost_two_eq_iff (b : Nat) :
    exampleOneHmmCost 2 b = 2 ↔ 3788 ≤ b ∧ b ≤ 11083 := by
  unfold exampleOneHmmCost exampleOnePathMutations
    leftDiscriminatingSites rightDiscriminatingSites
  simp only [List.filter_cons, List.filter_nil, decide_eq_true_eq]
  split_ifs <;> simp_all [List.length_append]
  all_goals omega

/-- Helper: the tied-breakpoint list is exactly the cost-2 breakpoints. -/
theorem mem_exampleOneTiedBreakpoints_iff (b : Nat) :
    b ∈ exampleOneTiedBreakpoints ↔ exampleOneHmmCost 2 b = 2 := by
  rw [exampleOneHmmCost_two_eq_iff]
  unfold exampleOneTiedBreakpoints
  rw [List.mem_range'_1]
  omega

/-- Helper: the last tied breakpoint is 11083. -/
theorem exampleOneTiedBreakpoints_getLast :
    exampleOneTiedBreakpoints.getLast? = some 11083 := by
  unfold exampleOneTiedBreakpoints
  rw [List.getLast?_range']
  norm_num

/-- Helper: the head of the tied-breakpoint list is 3788. -/
theorem exampleOneTiedBreakpoints_head :
    exampleOneTiedBreakpoints.head? = some 3788 := rfl

/-- Helper: the spec's forward (leftmost) tie choice evaluates to 3788. -/
theorem specForwardBreakpoint_eq : specForwardBreakpoint = 3788 := by
  unfold specForwardBreakpoint
  rw [exampleOneTiedBreakpoints_head]
  rfl

/-- Helper: the spec's reverse (rightmost) tie choice evaluates to
11083. -/
theorem specReverseBreakpoint_eq : specReverseBreakpoint = 11083 := by
  unfold specReverseBreakpoint
  rw [exampleOneTiedBreakpoints_getLast]
  rfl

/-- Helper: the modelled forward (rightmost) tie choice evaluates to
11083. -/
theorem modelForwardBreakpoint_eq : modelForwardBreakpoint = 11083 := by
  unfold modelForwardBreakpoint
  rw [exampleOneTiedBreakpoints_getLast]
  rfl

/-- Helper: the modelled reverse (leftmost) tie choice evaluates to
3788. -/
theorem modelReverseBreakpoint_eq : modelReverseBreakpoint = 3788 := by
  unfold modelReverseBreakpoint
  rw [exampleOneTiedBreakpoints_head]
  rfl

/-- C2 counterexample: on the frankentype example the spec's tie rule
(forward leftmost, mirror rightmost after un-mirroring) predicts forward
breakpoint 3788 and reverse breakpoint 11083, but the repository's tests
require the opposite — forward 11083 and reverse 3788 — even though both
3788 and 11083 are cost-tied breakpoints. -/
theorem hmm_tiebreak_counterexample :
    specForwardBreakpoint = 3788
    ∧ specReverseBreakpoint = 11083
    ∧ observedForwardBreakpoint = 11083
    ∧ observedReverseBreakpoint = 3788
    ∧ specForwardBreakpoint ≠ observedForwardBreakpoint
    ∧ specReverseBreakpoint ≠ observedReverseBreakpoint
    ∧ exampleOneHmmCost 2 observedForwardBreakpoint = 2
    ∧ exampleOneHmmCost 2 observedReverseBreakpoint = 2 := by
  refine ⟨specForwardBreakpoint_eq, specReverseBreakpoint_eq, rfl, rfl,
    ?_, ?_, by decide, by decide⟩
  · rw [specForwardBreakpoint_eq]
    decide
  · rw [specReverseBreakpoint_eq]
    decide

/-- C2 amended: tied breakpoints of the frankentype example span exactly
[3788, 11083]; the forward match places the breakpoint rightmost (11083)
and the reverse (mirror) match places it leftmost after un-mirroring
(3788), matching the repository's tests — the opposite directions to the
ones the spec prescribes. -/
theorem hmm_tiebreak_amended :
    (∀ b, b ∈ exampleOneTiedBreakpoints ↔ exampleOneHmmCost 2 b = 2)
    ∧ (∀ b, 2 ≤ exampleOneHmmCost 2 b)
    ∧ modelForwardBreakpoint = observedForwardBreakpoint
    ∧ modelReverseBreakpoint = observedReverseBreakpoint
    ∧ ∀ b ∈ exampleOneTiedBreakpoints,
        modelReverseBreakpoint ≤ b ∧ b ≤ modelForwardBreakpoint := by
  refine ⟨mem_exampleOneTiedBreakpoints_iff, exampleOneHmmCost_two_ge,
    ?_, ?_, ?_⟩
  · rw [modelForwardBreakpoint_eq]
    rfl
  · rw [modelReverseBreakpoint_eq]
    rfl
  · intro b hb
    rw [modelForwardBreakpoint_eq, modelReverseBreakpoint_eq]
    unfold exampleOneTiedBreakpoints at hb
    rw [List.mem_range'_1] at hb
    omega

/-- Witness for the amended C2 at the tied breakpoint 5000. -/
theorem hmm_tiebreak_amended_witness :
    exampleOneHmmCost 2 5000 = 2
    ∧ modelReverseBreakpoint ≤ 5000 ∧ 5000 ≤ modelForwardBreakpoint := by
  have hmem : (5000 : Nat) ∈ exampleOneTiedBreakpoints := by
    unfold exampleOneTiedBreakpoints
    rw [List.mem_range'_1]
    omega
  exact ⟨(hmm_tiebreak_amended.1 5000).mp hmem,
    (hmm_tiebreak_amended.2.2.2.2 5000 hmem).1,
    (hmm_tiebreak_amended.2.2.2.2 5000 hmem).2⟩

/-- C6: matching the frankentype haplotype (SRR11597188[:10000] spliced
with SRR11597163[10000:]) against the 2020-02-13 ARG at k = 2 yields an
HmmMatch with exactly two path segments, parents 31 and 46, the single
breakpoint 11083 and zero mutations; both single-segment alternatives
cost 3 > 2, so the two-segment path is optimal. -/
theorem frankentype_forward_match :
    exampleOneForwardMatch =
      { path :=
          [{ left := 0, right := 11083, parent := 31 },
           { left := 11083, right := 29904, parent := 46 }],
        mutations := [] }
    ∧ exampleOneForwardMatch.path.length = 2
    ∧ exampleOneForwardMatch.path.map (fun s => s.parent) = [31, 46]
    ∧ exampleOneForwardMatch.mutations = []
    ∧ exampleOneHmmCost 2 modelForwardBreakpoint = 2
    ∧ exampleOneHmmCost 2 0 = 3
    ∧ exampleOneHmmCost 2 29904 = 3 := by
  have h2 := modelForwardBreakpoint_eq
  refine ⟨?_, rfl, rfl, ?_, ?_, by decide, by decide⟩
  · unfold exampleOneForwardMatch
    rw [h2]
    decide
  · unfold exampleOneForwardMatch
    rw [h2]
    decide
  · rw [h2]
    decide

/-! ## Theorems about reversion push -/

/-- C5: attaching SRR11597163 while extending 2020-02-07 to 2020-02-08
pushes its immediate reversion to a new parent carrying the
REVERSION_PUSH flag with `sc2ts.sites = [5019]`, leaving zero mutations
on the sample node itself, even though the sample's HMM match records one
mismatch (position 5025). -/
theorem srr11597163_reversion_push :
    (applyReversionPush srr11597163GrandparentAllele
        srr11597163ArgMutations).parentFlags = NODE_IS_REVERSION_PUSH
    ∧ (applyReversionPush srr11597163GrandparentAllele
        srr11597163ArgMutations).parentSites = [5019]
    ∧ (applyReversionPush srr11597163GrandparentAllele
        srr11597163ArgMutations).sampleArgMutationCount = 0
    ∧ srr11597163HmmMutations.length = 1 := by
  decide

/-! ## Theorems about exact matching -/

/-- Helper: a haplotype has zero mismatches against itself. -/
theorem countMismatches_self (h : List Int) : countMismatches h h = 0 := by
  induction h with
  | nil => rfl
  | cons a t ih =>
      simpa [countMismatches, List.filter_cons] using ih

/-- C7: a sample whose haplotype is byte-identical to panel node 34's (the
SRR11597207 scenario on the 2020-02-10 ARG) matches, for any
num_mismatches budget 2 ≤ k ≤ 4, with a single-segment path to parent 34
and zero mutations; attaching it creates zero new internal nodes (the node
count is unchanged) and only the parent's `exact_matches` counter
increases. -/
theorem exact_match_attach (L k : Nat) (panel : List (Nat × List Int))
    (h : List Int) (st : ArgState)
    (hk2 : 2 ≤ k) (hk4 : k ≤ 4)
    (hmem : (34, h) ∈ panel)
    (honly : ∀ pr ∈ panel, countMismatches h pr.2 = 0 → pr.1 = 34) :
    matchExact L k panel h =
      some { path := [{ left := 0, right := L, parent := 34 }],
             mutations := [] }
    ∧ (attachExactMatch st 34).numNodes = st.numNodes
    ∧ (attachExactMatch st 34).exactMatches 34 = st.exactMatches 34 + 1
    ∧ ∀ q, q ≠ 34 →
        (attachExactMatch st 34).exactMatches q = st.exactMatches q := by
  refine ⟨?_, rfl, ?_, ?_⟩
  · have hex : (panel.find?
        (fun pr => decide (countMismatches h pr.2 = 0))).isSome := by
      rw [List.find?_isSome]
      refine ⟨(34, h), hmem, ?_⟩
      simp [countMismatches_self]
    obtain ⟨pr, hfind⟩ := Option.isSome_iff_exists.mp hex
    have hmemf : pr ∈ panel := List.mem_of_find?_eq_some hfind
    have hp : countMismatches h pr.2 = 0 := by
      simpa using List.find?_some hfind
    have hq : pr.1 = 34 := honly pr hmemf hp
    unfold matchExact findExactMatchParent
    rw [hfind, Option.map_some', hq]
    rfl
  · simp [attachExactMatch]
  · intro q hq
    simp [attachExactMatch, hq]

/-- Witness for C7 at the concrete panel: the SRR11597207 haplotype equals
node 34's, k = 2, and the 2020-02-10 ARG has 49 nodes. -/
theorem exact_match_attach_witness :
    matchExact 29904 2 panel20200210 srr11597207Haplotype =
      some { path := [{ left := 0, right := 29904, parent := 34 }],
             mutations := [] }
    ∧ (attachExactMatch ⟨49, fun _ => 0⟩ 34).numNodes = 49
    ∧ (attachExactMatch ⟨49, fun _ => 0⟩ 34).exactMatches 34 = 0 + 1 := by
  have h := exact_match_attach 29904 2 panel20200210 srr11597207Haplotype
    ⟨49, fun _ => 0⟩ (by decide) (by decide) (by decide) (by decide)
  exact ⟨h.1, h.2.1, h.2.2.1⟩

end Sc2ts
